import Mathlib

/-
Shallow embedding of the authentication subsystem of the `backend` forum
service (src/app_logic.rs and the login route of src/main.rs).

Modelling conventions:
- The SQLite database is a record of tables, each table a list of rows in
  insertion (rowid) order; `INTEGER PRIMARY KEY` rowids are assigned as
  max existing id + 1.
- Timestamps are integer seconds (rfc3339 strings are stored and re-parsed
  verbatim by the code, so the round-trip is modelled as the identity on
  integer-second instants; chrono's `num_seconds` expiration comparison is
  exact at this resolution).
- Randomness (the 32-character alphanumeric token, the 10-character salt)
  is modelled by passing the sampled string as an explicit argument.
- The argon2 collaborator is modelled by a parameter `H` for its core hash:
  `hash_encoded` produces an encoded credential embedding the salt and the
  core hash value, and `verify_encoded` re-derives with the embedded salt
  and compares; a stored credential that is not a well-formed encoding makes
  `verify_encoded` return an error, as in the argon2 crate.
- Stateful operations take the database and return it alongside an
  `Except` result, so read-only behaviour and error-path frame conditions
  are statable.
-/

namespace Backend

/-- Type of the argon2 core hash: plaintext password and salt to raw hash
value. The development is parametric in it: no property of the hash
function itself is used. -/
abbrev HashFn := String → String → Nat

/-- Parse classes of the TEXT stored in the `password_hash` column: either a
well-formed argon2 encoded string (determined by its embedded salt and raw
hash value) or malformed text that fails to decode. -/
inductive Cred where
  | encoded (salt : String) (hash : Nat)
  | malformed (raw : String)
deriving Repr, DecidableEq

/-- Error of the argon2 collaborator: decoding a malformed stored credential
fails (argon2::verify_encoded returns Err on an undecodable encoded string). -/
inductive ArgonError where
  | decodingFail
deriving Repr, DecidableEq

/-- argon2::hash_encoded(password, salt, config): the encoded output embeds
the salt and the core hash of (password, salt). -/
def hash_encoded (H : HashFn) (password salt : String) : Cred :=
  Cred.encoded salt (H password salt)

/-- argon2::verify_encoded(encoded, password): re-derives the hash with the
parameters and salt embedded in the encoded credential and compares; errors
on a malformed credential. -/
def verify_encoded (H : HashFn) (cred : Cred) (password : String) :
    Except ArgonError Bool :=
  match cred with
  | Cred.encoded salt hash => Except.ok (H password salt == hash)
  | Cred.malformed _ => Except.error ArgonError.decodingFail

/-- The only rusqlite error value these code paths construct is
rusqlite::Error::InvalidQuery (returned for lookups that match nothing and
for login without a matching user); constraint violations on INSERT surface
as a SqliteFailure. -/
inductive SqlError where
  | invalidQuery
  | sqliteFailure
deriving Repr, DecidableEq

/-- Row of the `users` table (setup_database in src/app_logic.rs). -/
structure UserRow where
  unique_id : Int
  username : String
  email : String
  password_hash : Cred
  password_salt : String
  registration_datetime : Int
deriving Repr, DecidableEq

/-- Row of the `authentication_keys` table. -/
structure AuthKeyRow where
  unique_id : Int
  user_id : Int
  authentication_key : String
  expiration : Int
deriving Repr, DecidableEq

/-- Row of the `user_privileges` table. -/
structure PrivRow where
  privilege_unique_id : Int
  user_id : Int
  privilege : String
deriving Repr, DecidableEq

/-- Row of the `threads` table. -/
structure ThreadRow where
  unique_id : Int
  title : String
  creator_uid : Int
  creation_timestamp : Int
  tag : String
  content : String
deriving Repr, DecidableEq

/-- Row of the `comments` table. -/
structure CommentRow where
  unique_id : Int
  thread_id : Int
  creator_uid : Int
  creation_timestamp : Int
  content : String
deriving Repr, DecidableEq

/-- The database created by setup_database: all five tables, each in rowid
order. -/
structure DB where
  users : List UserRow
  authentication_keys : List AuthKeyRow
  user_privileges : List PrivRow
  threads : List ThreadRow
  comments : List CommentRow
deriving Repr, DecidableEq

/-- Replace the `authentication_keys` table, leaving the other tables as
they are (an INSERT touches one table). -/
def setAuthKeys (db : DB) (ks : List AuthKeyRow) : DB :=
  ⟨db.users, ks, db.user_privileges, db.threads, db.comments⟩

/-- Replace the `users` table, leaving the other tables as they are. -/
def setUsers (db : DB) (us : List UserRow) : DB :=
  ⟨us, db.authentication_keys, db.user_privileges, db.threads, db.comments⟩

/-- Rowid SQLite assigns to a fresh `authentication_keys` row: one more than
the largest existing rowid. -/
def nextAuthKeyRowId (rows : List AuthKeyRow) : Int :=
  rows.foldl (fun m r => max m r.unique_id) 0 + 1

/-- Rowid SQLite assigns to a fresh `users` row. -/
def nextUserRowId (rows : List UserRow) : Int :=
  rows.foldl (fun m r => max m r.unique_id) 0 + 1

/-- app_logic::authenticate: SELECT expiration FROM authentication_keys
WHERE authentication_key = ?1, then scan the rows setting
valid_key_encountered whenever now.signed_duration_since(expiration) is
negative (the key has not expired); returns the flag, false when no row
matches or every match is expired. Runs only a SELECT. -/
def authenticate (db : DB) (now : Int) (auth_key : String) :
    Except SqlError Bool × DB :=
  let rows := db.authentication_keys.filter
    (fun r => r.authentication_key == auth_key)
  let valid_key_encountered := rows.any (fun r => decide (now - r.expiration < 0))
  (Except.ok valid_key_encountered, db)

/-- app_logic::reverse_key_lookup: SELECT user_id FROM authentication_keys
WHERE authentication_key = ?1, return the first matching row's user_id as a
string (the loop returns on its first iteration); InvalidQuery when nothing
matches. No expiration is read. Runs only a SELECT. -/
def reverse_key_lookup (db : DB) (auth_key : String) :
    Except SqlError String × DB :=
  match db.authentication_keys.find?
      (fun r => r.authentication_key == auth_key) with
  | some r => (Except.ok (toString r.user_id), db)
  | none => (Except.error SqlError.invalidQuery, db)

/-- Tail of app_logic::login (lines 364-389): given the matching_uid decided
by the password scan, mint the expiration now + Duration::days(10); when a
uid matched, INSERT the (user_id, authentication_key, expiration) binding
and return the key with its expiration; when none matched, return
InvalidQuery without touching the database. (The uid is written through
to_string into an INTEGER column; SQLite's column affinity makes this the
identity on integers, so it is carried as Int.) This is the spec's
issue_token. -/
def issue_token (db : DB) (matching_uid : Option Int)
    (authentication_key : String) (now : Int) :
    Except SqlError (String × Int) × DB :=
  let expiration_date := now + 10 * 86400
  match matching_uid with
  | some unique_id =>
      (Except.ok (authentication_key, expiration_date),
        setAuthKeys db (db.authentication_keys ++
          [⟨nextAuthKeyRowId db.authentication_keys, unique_id,
            authentication_key, expiration_date⟩]))
  | none => (Except.error SqlError.invalidQuery, db)

/-- app_logic::login: SELECT the users matching the username, then loop over
them; for each row, argon2::verify_encoded(stored_hash, password) is
matched: in the Ok arm matching_uid is set to Some(unique_id.to_string())
BEFORE the verification boolean is read (the boolean is bound to
password_valid, which is never used afterwards), and in the Err arm the
error is printed and matching_uid left unchanged. Then a fresh 32-character
key is sampled (here the fresh_key argument) and the issue_token tail runs. -/
def login (H : HashFn) (db : DB) (now : Int) (fresh_key : String)
    (username password : String) : Except SqlError (String × Int) × DB :=
  let rows := db.users.filter (fun u => u.username == username)
  let matching_uid : Option Int := rows.foldl
    (fun acc user =>
      match verify_encoded H user.password_hash password with
      | Except.ok _ => some user.unique_id
      | Except.error _ => acc)
    none
  issue_token db matching_uid fresh_key now

/-- app_logic::create_user: sample a 10-character salt (here the salt
argument), hash_encoded the password with it, and INSERT the user row; the
UNIQUE constraints on username and email fail the INSERT on collision. -/
def create_user (H : HashFn) (db : DB) (now : Int) (salt : String)
    (username email password : String) : Except SqlError Bool × DB :=
  let hash := hash_encoded H password salt
  if db.users.any (fun u => u.username == username || u.email == email) then
    (Except.error SqlError.sqliteFailure, db)
  else
    (Except.ok true,
      setUsers db (db.users ++
        [⟨nextUserRowId db.users, username, email, hash, salt, now⟩]))

/-- Outcome of a rocket route handler: a JSON value or a process panic. -/
inductive HandlerOutcome (α : Type) where
  | ok (val : α)
  | panicked
deriving Repr, DecidableEq

/-- The login route of src/main.rs (lines 170-194): calls app_logic::login
and, on any Err, panics; on Ok returns the key and expiration as JSON. -/
def loginHandler (H : HashFn) (db : DB) (now : Int) (fresh_key : String)
    (username password : String) : HandlerOutcome (String × Int) :=
  match (login H db now fresh_key username password).1 with
  | Except.ok val => HandlerOutcome.ok val
  | Except.error _ => HandlerOutcome.panicked

/-- Concrete stand-in core hash for evaluating the model on closed inputs
(the theorems about hashing are parametric in the hash function; this
instance is only used to run the code on concrete data). -/
def demoHash (password salt : String) : Nat :=
  (password ++ salt).length

/-- Credential stored for the demo user alice, password pw123. -/
def aliceCred : Cred := hash_encoded demoHash "pw123" "saltA"

/-- Demo users row: alice registered with password pw123. -/
def aliceRow : UserRow := ⟨1, "alice", "a@x.com", aliceCred, "saltA", 0⟩

/-- Database holding only the registered user alice. -/
def dbAlice : DB := ⟨[aliceRow], [], [], [], []⟩

/-- Demo users row whose stored credential text is corrupt. -/
def aliceMalRow : UserRow :=
  ⟨1, "alice", "a@x.com", Cred.malformed "garbage", "saltA", 0⟩

/-- Database where alice's stored credential is malformed. -/
def dbAliceMal : DB := ⟨[aliceMalRow], [], [], [], []⟩

/-- Freshly set-up database: every table empty. -/
def emptyDB : DB := ⟨[], [], [], [], []⟩

/-- Claim C1: the claim states that login with a wrong password fails with
an Invalid error and inserts no authentication_keys row. The code violates
this: verify_encoded on alice's well-formed credential with the wrong
password returns Ok(false), yet matching_uid is set in the Ok arm regardless
of the boolean, so login returns Ok with a freshly persisted token row. -/
theorem login_wrong_password_issues_token :
    verify_encoded demoHash aliceCred "wrongpw" = Except.ok false ∧
    login demoHash dbAlice 1000 "KEY" "alice" "wrongpw" =
      (Except.ok ("KEY", 865000),
        ⟨[aliceRow], [⟨1, 1, "KEY", 865000⟩], [], [], []⟩) := by
  exact ⟨rfl, rfl⟩

/-- Claim C3: for every core hash function, every password and every salt,
verifying a password against the credential derived from it succeeds:
verify_encoded re-derives with the salt embedded by hash_encoded and the
comparison holds. -/
theorem verify_credential_roundtrip (H : HashFn) (password salt : String) :
    verify_encoded H (hash_encoded H password salt) password =
      Except.ok true := by
  simp [verify_encoded, hash_encoded]

/-- Claim C5: the claim states the process never panics on externally
reachable input; the login route of main.rs violates it: a login attempt
with a username matching no identity makes app_logic::login return Err,
which the handler turns into a panic. -/
theorem login_handler_panics_on_unknown_username :
    loginHandler demoHash dbAlice 0 "KEY" "ghost" "pw" =
      HandlerOutcome.panicked := by
  rfl

/-- Claim C7: two derivations of a credential from the same password with
distinct fresh salts produce distinct stored credentials, for every core
hash function: the encoded credential embeds its salt. -/
theorem derive_credential_distinct_salts (H : HashFn) (password s1 s2 : String)
    (h : s1 ≠ s2) :
    hash_encoded H password s1 ≠ hash_encoded H password s2 := by
  intro heq
  simp only [hash_encoded, Cred.encoded.injEq] at heq
  exact h heq.1

/-- Witness for C7 at the concrete salts saltA and saltB. -/
theorem derive_credential_distinct_salts_witness :
    hash_encoded demoHash "pw123" "saltA" ≠ hash_encoded demoHash "pw123" "saltB" :=
  derive_credential_distinct_salts demoHash "pw123" "saltA" "saltB" (by decide)

/-- Claim C8: for every store, identity and issuance time, a successful
issue_token returns expiration now + 10 days (864000 seconds) and persists
exactly one new binding carrying the same key, identity and expiration. -/
theorem issue_token_expiration_is_now_plus_ttl (db : DB) (uid : Int)
    (key : String) (now : Int) :
    ∃ db2 row, issue_token db (some uid) key now =
        (Except.ok (key, now + 10 * 86400), db2) ∧
      db2.authentication_keys = db.authentication_keys ++ [row] ∧
      row.authentication_key = key ∧ row.user_id = uid ∧
      row.expiration = now + 10 * 86400 := by
  exact ⟨_, _, rfl, rfl, rfl, rfl, rfl⟩

/-- Claim C9: the claim states a cryptographic fault during verification is
surfaced as a distinct failure; the code violates it: a malformed stored
credential makes verify_encoded error, the error is swallowed into
password_valid = false, and login returns the very same InvalidQuery error
that a login for a nonexistent username returns; the caller cannot tell the
crypto fault apart from ordinary invalid credentials. -/
theorem malformed_credential_masked_as_invalid :
    verify_encoded demoHash (Cred.malformed "garbage") "pw123" =
        Except.error ArgonError.decodingFail ∧
    login demoHash dbAliceMal 0 "KEY" "alice" "pw123" =
        (Except.error SqlError.invalidQuery, dbAliceMal) ∧
    login demoHash emptyDB 0 "KEY" "alice" "pw123" =
        (Except.error SqlError.invalidQuery, emptyDB) := by
  exact ⟨rfl, rfl, rfl⟩

/-- Claim C10: token validation and reverse identity lookup are read-only:
for every store, time and token string they return the database unchanged,
whatever their result. -/
theorem authenticate_and_reverse_lookup_readonly (db : DB) (now : Int)
    (k : String) :
    (authenticate db now k).2 = db ∧ (reverse_key_lookup db k).2 = db := by
  constructor
  · rfl
  · unfold reverse_key_lookup
    split <;> rfl

/-- Claim C2: for every store, current time and presented token string,
authenticate returns Ok (never an error) with the store untouched, and the
boolean is true exactly when at least one stored binding carries that token
with an expiration strictly after now: false when zero bindings match or all
matches are expired, and an expired duplicate cannot shadow a live one. -/
theorem authenticate_true_iff_live_binding (db : DB) (now : Int) (k : String) :
    ∃ b : Bool, authenticate db now k = (Except.ok b, db) ∧
      (b = true ↔ ∃ r ∈ db.authentication_keys,
        r.authentication_key = k ∧ now < r.expiration) := by
  refine ⟨_, rfl, ?_⟩
  simp only [List.any_eq_true, List.mem_filter, decide_eq_true_eq, beq_iff_eq]
  constructor
  · rintro ⟨r, ⟨hmem, hkey⟩, hlt⟩
    exact ⟨r, hmem, hkey, by omega⟩
  · rintro ⟨r, hmem, hkey, hlt⟩
    exact ⟨r, ⟨hmem, hkey⟩, by omega⟩

/-- Claim C4: for a token string fresh for the store, after issue_token
binds it to an identity, reverse_key_lookup on that token returns that
identity (as the code's stringified uid), the store being read unchanged;
expiration plays no part (the statement holds for every issuance time, and
reverse_key_lookup takes no clock at all); on a store with no binding for
the token, reverse_key_lookup fails with the InvalidQuery error. -/
theorem resolve_identity_of_issued_token (db : DB) (id : Int) (key : String)
    (now : Int)
    (hfresh : ∀ r ∈ db.authentication_keys, r.authentication_key ≠ key) :
    reverse_key_lookup (issue_token db (some id) key now).2 key =
      (Except.ok (toString id), (issue_token db (some id) key now).2) ∧
    reverse_key_lookup db key = (Except.error SqlError.invalidQuery, db) := by
  have hnone : db.authentication_keys.find?
      (fun r => r.authentication_key == key) = none := by
    rw [List.find?_eq_none]
    intro r hr
    simpa using hfresh r hr
  constructor
  · have h2 : (issue_token db (some id) key now).2 =
        setAuthKeys db (db.authentication_keys ++
          [⟨nextAuthKeyRowId db.authentication_keys, id, key,
            now + 10 * 86400⟩]) := rfl
    rw [h2]
    unfold reverse_key_lookup
    simp [setAuthKeys, List.find?_append, hnone]
  · unfold reverse_key_lookup
    simp [hnone]

/-- Witness for C4: issuing the fresh token TOK for identity 7 on the empty
store, then resolving TOK, yields 7; resolving TOK on the empty store
fails with InvalidQuery. -/
theorem resolve_identity_of_issued_token_witness :
    reverse_key_lookup (issue_token emptyDB (some 7) "TOK" 0).2 "TOK" =
      (Except.ok (toString (7 : Int)), (issue_token emptyDB (some 7) "TOK" 0).2) ∧
    reverse_key_lookup emptyDB "TOK" =
      (Except.error SqlError.invalidQuery, emptyDB) :=
  resolve_identity_of_issued_token emptyDB 7 "TOK" 0 (by simp [emptyDB])

/-- Claim C6: a login whose username resolves to no identity reaches
issue_token with no matching uid, fails with the InvalidQuery error and
leaves the whole database, the authentication_keys table included,
unchanged: no orphaned token row is inserted. -/
theorem login_unknown_identity_no_token (H : HashFn) (db : DB) (now : Int)
    (key : String) (username password : String)
    (h : ∀ u ∈ db.users, u.username ≠ username) :
    login H db now key username password =
      (Except.error SqlError.invalidQuery, db) := by
  have hfil : db.users.filter (fun u => u.username == username) = [] := by
    rw [List.filter_eq_nil_iff]
    intro u hu
    simpa using h u hu
  simp [login, hfil, issue_token]

/-- Witness for C6: logging in as the unregistered ghost on the store
holding only alice errors out and leaves the store unchanged. -/
theorem login_unknown_identity_no_token_witness :
    login demoHash dbAlice 0 "KEY" "ghost" "pw" =
      (Except.error SqlError.invalidQuery, dbAlice) :=
  login_unknown_identity_no_token demoHash dbAlice 0 "KEY" "ghost" "pw"
    (by decide)

end Backend
